import Mathlib

/-!
Verification of the safe dispatch layer of the crux-bot repository
(`dismob/log.py`, `dismob/colors.py`, `dismob/utils.py`).

The Python code is shallowly embedded as pure Lean functions.  Interaction
with the external world (the rate limiter, the remote chat API, the
`ctx.send` primitive) is modelled by passing the outcome of each network
call as an explicit argument (an inductive of the exception cases the code
catches), and each operation returns, besides its result, the list of
network requests it issued and the list of log records it emitted.  The
log-sink layer (`setup_logger`, the `require_logger` guard) is modelled as
explicit state passing over a `LoggerState`; the dispatcher operations are
modelled under the precondition that the sink is initialized, in which case
every `debug`/`info`/`warning`/`error` call simply emits one record.
Python strings manipulated character by character (`colors.py`) are
embedded as `List Char`, with the ASCII fragments of `str.strip`,
`str.lower`, `str.upper` and `int(s, 16)` spelled out as Lean functions.
-/

namespace dismob

/-- Severity levels used by the logging helpers in `dismob/log.py`. -/
inductive Level
  | debug
  | info
  | warning
  | error
deriving DecidableEq

/-- One emitted log record: severity plus rendered message. -/
structure LogEntry where
  level : Level
  msg : String
deriving DecidableEq

/-- Numeric value of a severity, as in Python's `logging` module. -/
def levelNum : Level → Nat
  | .debug => 10
  | .info => 20
  | .warning => 30
  | .error => 40

-- ---------------------------------------------------------------------------
-- Log sink state (`setup_logger`, module-global `logger`) from dismob/log.py
-- ---------------------------------------------------------------------------

/-- One handler attached to the logger: `isFile = true` is the durable
`FileHandler`, `isFile = false` the colorized console `StreamHandler`.
Only the data relevant to the claims (kind and threshold) is kept; the
formatters are pure rendering. -/
structure Handler where
  isFile : Bool
  level : Nat
deriving DecidableEq

/-- State of the process-wide logger named by `setup_logger`'s
`logger_name` argument (the claims only concern repeated initialization
under the same name, so a single logger state is modelled). -/
structure LoggerState where
  level : Nat
  handlers : List Handler
deriving DecidableEq

/-- A fresh `logging.getLogger(name)` logger: level `NOTSET` (0), no
handlers. -/
def initialLogger : LoggerState := ⟨0, []⟩

/-- ASCII uppercasing of one character, the fragment of Python `str.upper`
exercised by the level-name strings. -/
def pyToUpper (c : Char) : Char :=
  match c with
  | 'a' => 'A' | 'b' => 'B' | 'c' => 'C' | 'd' => 'D' | 'e' => 'E' | 'f' => 'F'
  | 'g' => 'G' | 'h' => 'H' | 'i' => 'I' | 'j' => 'J' | 'k' => 'K' | 'l' => 'L'
  | 'm' => 'M' | 'n' => 'N' | 'o' => 'O' | 'p' => 'P' | 'q' => 'Q' | 'r' => 'R'
  | 's' => 'S' | 't' => 'T' | 'u' => 'U' | 'v' => 'V' | 'w' => 'W' | 'x' => 'X'
  | 'y' => 'Y' | 'z' => 'Z'
  | other => other

/-- Python `s.upper()` on an ASCII string. -/
def pyUpper (s : String) : String := String.mk (s.toList.map pyToUpper)

/-- Python `logging.getLevelNamesMapping()` restricted to lookup: the
standard name-to-number table. -/
def getLevelNamesMapping (s : String) : Option Nat :=
  if s = "CRITICAL" then some 50
  else if s = "FATAL" then some 50
  else if s = "ERROR" then some 40
  else if s = "WARN" then some 30
  else if s = "WARNING" then some 30
  else if s = "INFO" then some 20
  else if s = "DEBUG" then some 10
  else if s = "NOTSET" then some 0
  else none

/-- Embedding of `setup_logger(logger_name, file_level, console_level)` from
`dismob/log.py`, acting on the state of the (fixed-name) logger.  It
resolves both level names (default `INFO` on an unrecognized name), sets
the logger's level to their minimum, builds a file handler and a console
handler, and adds them only if the logger has no handlers yet
(`logger.hasHandlers()`).  Opening the log file and the formatter objects
are side effects outside the modelled state. -/
def setup_logger (st : LoggerState) (file_level console_level : String) : LoggerState :=
  let file_logLevel := (getLevelNamesMapping (pyUpper file_level)).getD 20
  let console_logLevel := (getLevelNamesMapping (pyUpper console_level)).getD 20
  let st1 : LoggerState := ⟨min file_logLevel console_logLevel, st.handlers⟩
  if st1.handlers.isEmpty then
    ⟨st1.level, st1.handlers ++ [⟨true, file_logLevel⟩, ⟨false, console_logLevel⟩]⟩
  else st1

/-- What `logger.log(lvl, msg)` emits given the configured state: one
rendered record per handler whose threshold passes, provided the logger's
own threshold passes. -/
def emitRecord (l : LoggerState) (lvl : Level) (msg : String) : List LogEntry :=
  if l.level ≤ levelNum lvl then
    (l.handlers.filter (fun h => h.level ≤ levelNum lvl)).map (fun _ => (⟨lvl, msg⟩ : LogEntry))
  else []

/-- The message of the `RuntimeError` raised by the `require_logger`
guard. -/
def setupErrorMsg : String := "Logger has not been set up. Call setup_logger() first."

/-- The `require_logger` decorator from `dismob/log.py`: the module-global
`logger` may be `None` (sink not initialized), in which case the wrapped
operation raises `RuntimeError` instead of touching the absent sink. -/
def require_logger {α : Type} (f : LoggerState → α) : Option LoggerState → Except String α :=
  fun st =>
    match st with
    | none => Except.error setupErrorMsg
    | some l => Except.ok (f l)

/-- Operation `log.debug(msg)` under the `require_logger` guard. -/
def debug (st : Option LoggerState) (msg : String) : Except String (List LogEntry) :=
  require_logger (fun l => emitRecord l Level.debug msg) st

/-- Operation `log.info(msg)` under the `require_logger` guard. -/
def info (st : Option LoggerState) (msg : String) : Except String (List LogEntry) :=
  require_logger (fun l => emitRecord l Level.info msg) st

/-- Operation `log.warning(msg)` under the `require_logger` guard. -/
def warning (st : Option LoggerState) (msg : String) : Except String (List LogEntry) :=
  require_logger (fun l => emitRecord l Level.warning msg) st

/-- Operation `log.error(msg, stacktrace)` under the `require_logger` guard.  The
`stacktrace` flag only toggles `stack_info` rendering on the record. -/
def error (st : Option LoggerState) (msg : String) (stacktrace : Bool) : Except String (List LogEntry) :=
  let _ := stacktrace
  require_logger (fun l => emitRecord l Level.error msg) st

-- ---------------------------------------------------------------------------
-- Rate-limited dispatcher (safe_send_message / safe_respond / safe_followup)
-- ---------------------------------------------------------------------------

/-- A rich embed as built by `client` in `dismob/log.py` (title, colour
value, description, optional footer text and icon). -/
structure Embed where
  title : Option String
  color : Int
  description : String
  footerText : Option String
  footerIcon : Option String
deriving DecidableEq

/-- Either `discord.interactions.MISSING` or a present value, the result type
of `missing_if_none`. -/
inductive Missing (α : Type)
  | missing
  | val (a : α)
deriving DecidableEq

/-- Helper `missing_if_none(value)` from `dismob/log.py`: `MISSING` if the value
is `None`, else the value. -/
def missing_if_none {α : Type} : Option α → Missing α
  | none => Missing.missing
  | some a => Missing.val a

/-- The two identifiers of a `discord.Interaction` used by the dispatcher
as rate-limit major parameters. -/
structure Interaction where
  id : Nat
  application_id : Nat
deriving DecidableEq

/-- A network request handed to the rate limiter (or, for `ctxSend`, sent
directly through `ctx.send`).  Views and files are abstracted to
identifiers. -/
inductive Request
  | channelSend (channel : String) (content : Option String) (embed : Option Embed)
      (view : Option Nat) (file : Option Nat)
  | execute (route : String) (majorKey : String) (majorVal : Nat)
      (content : Option String) (embed : Missing Embed) (view : Missing Nat)
      (file : Missing Nat) (ephemeral : Bool)
  | ctxSend (embed : Embed) (delete_after : Nat)
deriving DecidableEq

/-- Outcome of the rate limiter's `safe_send` for a channel send: the
exceptions `safe_send_message` distinguishes. -/
inductive SendOutcome
  | ok (handle : Nat)
  | forbidden
  | notFound
  | exc (desc : String)
deriving DecidableEq

/-- Outcome of `execute_request` for an initial interaction response:
success, `discord.InteractionResponded`, or any other exception. -/
inductive RespondOutcome
  | ok (r : Nat)
  | interactionResponded
  | exc (desc : String)
deriving DecidableEq

/-- Outcome of `execute_request` for a followup send: success or any
exception. -/
inductive FollowOutcome
  | ok (r : Nat)
  | exc (desc : String)
deriving DecidableEq

/-- Observable effect of one dispatcher operation: the value returned to
the caller, the requests issued to the network layer, and the log records
emitted.  The operations are total functions into this type: with the log
sink initialized (the claims' precondition) no exception escapes them. -/
structure Dispatched where
  result : Option Nat
  requests : List Request
  logs : List LogEntry
deriving DecidableEq

/-- Embedding of `safe_send_message(channel, content, embed, view, file)` from
`dismob/log.py`, as a function of the rate limiter's outcome.  The channel
is identified by its `name` (the only attribute used). -/
def safe_send_message (channel : String) (content : Option String) (embed : Option Embed)
    (view : Option Nat) (file : Option Nat) (outcome : SendOutcome) : Dispatched :=
  let req := Request.channelSend channel content embed view file
  match outcome with
  | .ok h => ⟨some h, [req], [⟨Level.info, "Message sent in " ++ channel⟩]⟩
  | .forbidden =>
    ⟨none, [req], [⟨Level.error, "Bot has not the permission to send messages in " ++ channel⟩]⟩
  | .notFound => ⟨none, [req], [⟨Level.error, "Channel " ++ channel ++ " not found"⟩]⟩
  | .exc d => ⟨none, [req], [⟨Level.error, "Error when sending message: " ++ d⟩]⟩

/-- The request `safe_respond` submits: `interaction.response.send_message`
through `execute_request`, on the interaction-callback route, bucketed by
the interaction id, with `None` embed/view/file replaced by `MISSING`. -/
def respondRequest (itx : Interaction) (content : Option String) (embed : Option Embed)
    (view : Option Nat) (file : Option Nat) (ephemeral : Bool) : Request :=
  Request.execute "POST /interactions/{interaction_id}/{interaction_token}/callback"
    "interaction_id" itx.id content (missing_if_none embed) (missing_if_none view)
    (missing_if_none file) ephemeral

/-- The request `safe_followup` submits: `interaction.followup.send`
through `execute_request`, on the webhook route, bucketed by the
application id. -/
def followupRequest (itx : Interaction) (content : Option String) (embed : Option Embed)
    (view : Option Nat) (file : Option Nat) (ephemeral : Bool) : Request :=
  Request.execute "POST /webhooks/{application_id}/{interaction_token}"
    "application_id" itx.application_id content (missing_if_none embed)
    (missing_if_none view) (missing_if_none file) ephemeral

/-- Embedding of `safe_followup(interaction, ...)` from `dismob/log.py` as a function of
the rate limiter's outcome: returns the result on success; on any
exception logs one error and returns `None` (fall-through). -/
def safe_followup (itx : Interaction) (content : Option String) (embed : Option Embed)
    (view : Option Nat) (file : Option Nat) (ephemeral : Bool)
    (outcome : FollowOutcome) : Dispatched :=
  let req := followupRequest itx content embed view file ephemeral
  match outcome with
  | .ok r => ⟨some r, [req], []⟩
  | .exc d => ⟨none, [req], [⟨Level.error, "Error during the followup: " ++ d⟩]⟩

/-- Embedding of `safe_respond(interaction, ...)` from `dismob/log.py` as a function of
the initial call's outcome and (only reached on the already-responded
branch) the followup's outcome.  On `discord.InteractionResponded` the
source runs `await safe_followup(...)` without a `return`, so the
fallback's value is discarded and the function returns `None`. -/
def safe_respond (itx : Interaction) (content : Option String) (embed : Option Embed)
    (view : Option Nat) (file : Option Nat) (ephemeral : Bool)
    (outcome : RespondOutcome) (fOutcome : FollowOutcome) : Dispatched :=
  let req := respondRequest itx content embed view file ephemeral
  match outcome with
  | .ok r => ⟨some r, [req], []⟩
  | .interactionResponded =>
    let fu := safe_followup itx content embed view file ephemeral fOutcome
    ⟨none, req :: fu.requests, fu.logs⟩
  | .exc d => ⟨none, [req], [⟨Level.error, "Error when responding to the interaction: " ++ d⟩]⟩

-- ---------------------------------------------------------------------------
-- Client notification helpers (client / success / failure) from dismob/log.py
-- ---------------------------------------------------------------------------

/-- The caller context of `client`: a `commands.Context` (plain channel,
identified by the author's display name and avatar used for the footer) or
a `discord.Interaction`. -/
inductive Ctx
  | context (authorName : String) (authorAvatar : String)
  | interaction (itx : Interaction)
deriving DecidableEq

/-- Outcome of a direct `ctx.send` call (not routed through the rate
limiter): success, or any raised exception. -/
inductive CtxSendOutcome
  | ok (m : Nat)
  | exc (desc : String)
deriving DecidableEq

/-- The embed `client` builds: title, colour and the message as
description; for a `commands.Context` a footer naming the author is
added. -/
def clientEmbed (ctx : Ctx) (msg : String) (title : Option String) (color : Int) : Embed :=
  match ctx with
  | .context authorName authorAvatar =>
    ⟨title, color, msg, some ("Commande faites par " ++ authorName), some authorAvatar⟩
  | .interaction _ => ⟨title, color, msg, none, none⟩

/-- Result of `client`/`success`/`failure`: the value is wrapped in
`Except` because the `commands.Context` arm calls `ctx.send` directly and
an exception raised there propagates to the caller. -/
structure ClientResult where
  result : Except String (Option Nat)
  requests : List Request
  logs : List LogEntry

/-- Default embed colour `discord.Color.blurple()` (value modelled from
the external discord library). -/
def blurpleVal : Int := 0x5865F2

/-- Constant `discord.Color.green()` (external). -/
def greenVal : Int := 0x2ecc71

/-- Constant `discord.Color.red()` (external). -/
def redVal : Int := 0xe74c3c

/-- Embedding of `client(ctx, msg, title, color, delete_after)` from `dismob/log.py`.
For a `commands.Context` it sends the embed directly via
`ctx.send(embed=e, delete_after=delete_after)` (outcome `ctxOutcome`); for
an interaction it delegates to `safe_respond` with `ephemeral=True`
(outcomes `rOutcome`, `fOutcome`). -/
def client (ctx : Ctx) (msg : String) (title : Option String) (color : Int)
    (delete_after : Nat) (ctxOutcome : CtxSendOutcome) (rOutcome : RespondOutcome)
    (fOutcome : FollowOutcome) : ClientResult :=
  let e := clientEmbed ctx msg title color
  match ctx with
  | .context _ _ =>
    match ctxOutcome with
    | .ok m => ⟨Except.ok (some m), [Request.ctxSend e delete_after], []⟩
    | .exc d => ⟨Except.error d, [Request.ctxSend e delete_after], []⟩
  | .interaction itx =>
    let d := safe_respond itx none (some e) none none true rOutcome fOutcome
    ⟨Except.ok d.result, d.requests, d.logs⟩

/-- Title string of the success notification. -/
def successTitle : String := ":white_check_mark: Success"

/-- Title string of the failure notification. -/
def errorTitle : String := ":x: Error"

/-- Embedding of `success(ctx, msg, delete_after)` from `dismob/log.py`: logs `msg` at
info level (sink assumed initialized), then emits the green success
notification through `client`. -/
def success (ctx : Ctx) (msg : String) (delete_after : Nat) (ctxOutcome : CtxSendOutcome)
    (rOutcome : RespondOutcome) (fOutcome : FollowOutcome) : ClientResult :=
  let c := client ctx msg (some successTitle) greenVal delete_after ctxOutcome rOutcome fOutcome
  ⟨c.result, c.requests, ⟨Level.info, msg⟩ :: c.logs⟩

/-- Embedding of `failure(ctx, msg, delete_after, stacktrace)` from `dismob/log.py`:
logs `msg` at error level, then emits the red error notification through
`client`. -/
def failure (ctx : Ctx) (msg : String) (delete_after : Nat) (stacktrace : Bool)
    (ctxOutcome : CtxSendOutcome) (rOutcome : RespondOutcome)
    (fOutcome : FollowOutcome) : ClientResult :=
  let _ := stacktrace
  let c := client ctx msg (some errorTitle) redVal delete_after ctxOutcome rOutcome fOutcome
  ⟨c.result, c.requests, ⟨Level.error, msg⟩ :: c.logs⟩

-- ---------------------------------------------------------------------------
-- Colour resolver (str_to_color) from dismob/colors.py
-- ---------------------------------------------------------------------------

/-- The ASCII whitespace characters stripped by Python `str.strip()` (the
fragment relevant to the inputs considered; Python also strips further
Unicode whitespace). -/
def spaceChars : List Char := [' ', '\t', '\n', '\r', '\x0b', '\x0c']

/-- Whether a character counts as strippable whitespace. -/
def isPySpace (c : Char) : Bool := decide (c ∈ spaceChars)

/-- Python `s.strip()` on an ASCII string, as a list transformation. -/
def pyStrip (s : List Char) : List Char :=
  ((s.dropWhile isPySpace).reverse.dropWhile isPySpace).reverse

/-- ASCII lowercasing of one character (fragment of Python `str.lower`). -/
def pyToLower (c : Char) : Char :=
  match c with
  | 'A' => 'a' | 'B' => 'b' | 'C' => 'c' | 'D' => 'd' | 'E' => 'e' | 'F' => 'f'
  | 'G' => 'g' | 'H' => 'h' | 'I' => 'i' | 'J' => 'j' | 'K' => 'k' | 'L' => 'l'
  | 'M' => 'm' | 'N' => 'n' | 'O' => 'o' | 'P' => 'p' | 'Q' => 'q' | 'R' => 'r'
  | 'S' => 's' | 'T' => 't' | 'U' => 'u' | 'V' => 'v' | 'W' => 'w' | 'X' => 'x'
  | 'Y' => 'y' | 'Z' => 'z'
  | other => other

/-- Python `s.lower()` on an ASCII string, as a list transformation. -/
def pyLower (s : List Char) : List Char := s.map pyToLower

/-- The characters `int(s, 16)` accepts as digits (ASCII; Python also
accepts Unicode decimal digits, irrelevant to the claims' inputs). -/
def hexDigitChars : List Char :=
  ['A', 'B', 'C', 'D', 'E', 'F', 'a', 'b', 'c', 'd', 'e', 'f',
   '0', '1', '2', '3', '4', '5', '6', '7', '8', '9']

/-- Whether a character is a base-16 digit. -/
def isHexDigit (c : Char) : Bool := decide (c ∈ hexDigitChars)

/-- The lowercase base-16 digits: the possible characters of a lowercased
hex string. -/
def lowerHexChars : List Char :=
  ['a', 'b', 'c', 'd', 'e', 'f',
   '0', '1', '2', '3', '4', '5', '6', '7', '8', '9']

/-- Numeric value of a base-16 digit (0 on non-digits, never reached). -/
def hexDigitVal (c : Char) : Nat :=
  match c with
  | '0' => 0 | '1' => 1 | '2' => 2 | '3' => 3 | '4' => 4
  | '5' => 5 | '6' => 6 | '7' => 7 | '8' => 8 | '9' => 9
  | 'a' => 10 | 'b' => 11 | 'c' => 12 | 'd' => 13 | 'e' => 14 | 'f' => 15
  | 'A' => 10 | 'B' => 11 | 'C' => 12 | 'D' => 13 | 'E' => 14 | 'F' => 15
  | _ => 0

/-- Standard positional base-16 value of a digit string (the reference
interpretation the parser is compared against). -/
def hexVal (cs : List Char) : Nat :=
  cs.foldl (fun a c => 16 * a + hexDigitVal c) 0

/-- Digit scanner of CPython's `int(s, 16)` after the first digit:
single underscores are allowed between digits, nowhere else. -/
def digitsLoop : List Char → Nat → Option Nat
  | [], acc => some acc
  | c :: rest, acc =>
    if c = '_' then
      match rest with
      | [] => none
      | c2 :: rest2 =>
        if isHexDigit c2 then digitsLoop rest2 (16 * acc + hexDigitVal c2) else none
    else if isHexDigit c then digitsLoop rest (16 * acc + hexDigitVal c) else none

/-- A nonempty run of base-16 digits with single underscores between
digits (no leading underscore). -/
def parseHexDigits : List Char → Option Nat
  | [] => none
  | c :: rest => if isHexDigit c then digitsLoop rest (hexDigitVal c) else none

/-- Digit part after a `0x`/`0X` prefix: one underscore may directly
follow the prefix. -/
def parsePrefixed (cs : List Char) : Option Nat :=
  match cs with
  | [] => none
  | c :: rest => if c = '_' then parseHexDigits rest else parseHexDigits cs

/-- Body of `int(s, 16)` after whitespace and sign: an optional `0x`/`0X` prefix,
then the digit part. -/
def parseAfterSign (cs : List Char) : Option Nat :=
  match cs with
  | c0 :: c1 :: rest =>
    if c0 = '0' ∧ (c1 = 'x' ∨ c1 = 'X') then parsePrefixed rest else parseHexDigits cs
  | _ => parseHexDigits cs

/-- Sign handling of `int(s, 16)` on the already-stripped string. -/
def pyIntHexCore (cs : List Char) : Option Int :=
  match cs with
  | [] => none
  | c :: rest =>
    if c = '+' then (parseAfterSign rest).map (fun n => (n : Int))
    else if c = '-' then (parseAfterSign rest).map (fun n => -(n : Int))
    else (parseAfterSign (c :: rest)).map (fun n => (n : Int))

/-- CPython `int(s, 16)` (ASCII fragment): strip whitespace, optional
sign, optional `0x` prefix, digits with single underscores between them;
`none` models the raised `ValueError`. -/
def pyIntHex (s : List Char) : Option Int := pyIntHexCore (pyStrip s)

/-- The `known_colors` set from `dismob/colors.py`, in source order. -/
def known_colors : List (List Char) :=
  [(r"teal").toList, (r"dark_teal").toList, (r"brand_green").toList, (r"green").toList,
   (r"dark_green").toList, (r"blue").toList, (r"dark_blue").toList, (r"purple").toList,
   (r"dark_purple").toList, (r"magenta").toList, (r"dark_magenta").toList, (r"gold").toList,
   (r"dark_gold").toList, (r"orange").toList, (r"dark_orange").toList, (r"brand_red").toList,
   (r"red").toList, (r"dark_red").toList, (r"lighter_grey").toList, (r"lighter_gray").toList,
   (r"dark_grey").toList, (r"dark_gray").toList, (r"light_grey").toList, (r"light_gray").toList,
   (r"darker_grey").toList, (r"darker_gray").toList, (r"og_blurple").toList, (r"blurple").toList,
   (r"greyple").toList, (r"dark_theme").toList, (r"fuchsia").toList, (r"yellow").toList,
   (r"dark_embed").toList, (r"light_embed").toList, (r"pink").toList, (r"dark_pink").toList]

/-- The value of `getattr(discord.Colour, name)()` for each known colour
name.  The exact numbers are constants of the external discord library
(modelled; they do not affect any claim, which only compare against this
same accessor). -/
def namedColorTable : List (List Char × Int) :=
  [((r"teal").toList, 0x1abc9c), ((r"dark_teal").toList, 0x11806a),
   ((r"brand_green").toList, 0x57f287), ((r"green").toList, 0x2ecc71),
   ((r"dark_green").toList, 0x1f8b4c), ((r"blue").toList, 0x3498db),
   ((r"dark_blue").toList, 0x206694), ((r"purple").toList, 0x9b59b6),
   ((r"dark_purple").toList, 0x71368a), ((r"magenta").toList, 0xe91e63),
   ((r"dark_magenta").toList, 0xad1457), ((r"gold").toList, 0xf1c40f),
   ((r"dark_gold").toList, 0xc27c0e), ((r"orange").toList, 0xe67e22),
   ((r"dark_orange").toList, 0xa84300), ((r"brand_red").toList, 0xed4245),
   ((r"red").toList, 0xe74c3c), ((r"dark_red").toList, 0x992d22),
   ((r"lighter_grey").toList, 0x95a5a6), ((r"lighter_gray").toList, 0x95a5a6),
   ((r"dark_grey").toList, 0x607d8b), ((r"dark_gray").toList, 0x607d8b),
   ((r"light_grey").toList, 0x979c9f), ((r"light_gray").toList, 0x979c9f),
   ((r"darker_grey").toList, 0x546e7a), ((r"darker_gray").toList, 0x546e7a),
   ((r"og_blurple").toList, 0x7289da), ((r"blurple").toList, 0x5865f2),
   ((r"greyple").toList, 0x99aab5), ((r"dark_theme").toList, 0x313338),
   ((r"fuchsia").toList, 0xeb459e), ((r"yellow").toList, 0xfee75c),
   ((r"dark_embed").toList, 0x2b2d31), ((r"light_embed").toList, 0xeeeff1),
   ((r"pink").toList, 0xeb459f), ((r"dark_pink").toList, 0xad1457)]

/-- Lookup of a named colour's value (only ever applied to members of
`known_colors`). -/
def namedColorValue (name : List Char) : Int :=
  ((namedColorTable.lookup name).getD 0)

/-- Each character doubled, the `''.join([c*2 for c in color_str])`
expansion of a 3-character hex form. -/
def doubleChars : List Char → List Char
  | [] => []
  | c :: rest => c :: c :: doubleChars rest

/-- The hex-candidate string `str_to_color` attempts to parse, starting
from the stripped input: a leading `#` is removed, then a 3-character form
is expanded by doubling each character. -/
def hexCandidate (t : List Char) : List Char :=
  let t1 := if t.head? = some '#' then t.tail else t
  if t1.length = 3 then doubleChars t1 else t1

/-- The warning record `str_to_color` emits on fallback; its message names
the transformed string `t2` (the variable `color_str` at that point), not
necessarily the original input. -/
def warnColorMsg (t2 : List Char) : LogEntry :=
  ⟨Level.warning,
   String.mk ((r"Invalid color string '").toList ++ t2 ++
     (r"', using default color (blurple).").toList)⟩

/-- Whether `needle` is a prefix of `hay` (character lists). -/
def startsWithList : List Char → List Char → Bool
  | _, [] => true
  | [], _ :: _ => false
  | a :: as, b :: bs => (a == b) && startsWithList as bs

/-- Whether `needle` occurs contiguously inside `hay`; used to state that
a log message does (not) name a given string. -/
def hasSublist : List Char → List Char → Bool
  | [], needle => needle.isEmpty
  | a :: t, needle => startsWithList (a :: t) needle || hasSublist t needle

/-- Embedding of `str_to_color(color_str)` from `dismob/colors.py`: strip, try the
known-name table on the lowercased string, else try hex parsing (strip
`#`, expand 3 to 6 characters, `int(_, 16)` if exactly 6 characters), else
warn and return blurple.  Returns the colour value and the emitted log
records (sink assumed initialized). -/
def str_to_color (s : List Char) : Int × List LogEntry :=
  if pyLower (pyStrip s) ∈ known_colors then
    (namedColorValue (pyLower (pyStrip s)), [])
  else if (hexCandidate (pyStrip s)).length = 6 then
    match pyIntHex (hexCandidate (pyStrip s)) with
    | some v => (v, [])
    | none => (blurpleVal, [warnColorMsg (hexCandidate (pyStrip s))])
  else (blurpleVal, [warnColorMsg (hexCandidate (pyStrip s))])

-- ---------------------------------------------------------------------------
-- View cleanup (clear_views) from dismob/utils.py
-- ---------------------------------------------------------------------------

/-- Warning message of `clear_views` when no view types are given. -/
def clearWarnMsg : String := "No view types provided to clear_views; skipping."

/-- Info message of `clear_views`: the count removed and Python's
rendering of the type tuple (opaque here, passed as `typesRepr`). -/
def removedMsg (n : Nat) (typesRepr : String) : String :=
  "Removed " ++ toString n ++ " persistent views of types " ++ typesRepr

/-- Embedding of `clear_views(bot, view_types)` from `dismob/utils.py`.  The bot's
`persistent_views` collection is a list of view handles (identifiers);
`isinstance(view, view_types)` is the predicate `p` (absent when
`view_types is None`).  Matches are collected first, then each is removed
with `list.remove` (first occurrence), then one info record reports the
count.  Returns the new collection and the emitted log records. -/
def clear_views (views : List Nat) (viewTypes : Option (Nat → Bool))
    (typesRepr : String) : List Nat × List LogEntry :=
  match viewTypes with
  | none => (views, [⟨Level.warning, clearWarnMsg⟩])
  | some p =>
    let views_to_remove := views.filter p
    let remaining := views_to_remove.foldl (fun acc v => acc.erase v) views
    (remaining, [⟨Level.info, removedMsg views_to_remove.length typesRepr⟩])

-- ---------------------------------------------------------------------------
-- Helper lemmas
-- ---------------------------------------------------------------------------

theorem dropWhile_eq_self_of_false {α : Type} (p : α → Bool) (l : List α)
    (h : ∀ c ∈ l, p c = false) : l.dropWhile p = l := by
  cases l with
  | nil => rfl
  | cons a t =>
    rw [List.dropWhile_cons, h a (List.mem_cons_self a t)]
    simp

theorem pyStrip_eq_self (s : List Char) (h : ∀ c ∈ s, isPySpace c = false) :
    pyStrip s = s := by
  unfold pyStrip
  rw [dropWhile_eq_self_of_false _ _ h]
  rw [dropWhile_eq_self_of_false _ _ (fun c hc => h c (List.mem_reverse.mp hc))]
  exact List.reverse_reverse s

theorem hexChar_props (c : Char) (h : c ∈ hexDigitChars) :
    isPySpace c = false ∧ c ≠ '#' ∧ c ≠ '+' ∧ c ≠ '-' ∧ c ≠ '_' ∧ c ≠ 'x' ∧ c ≠ 'X'
      ∧ pyToLower c ∈ lowerHexChars := by
  fin_cases h <;> exact (by decide)

theorem mem_hexChars_of_isHexDigit (c : Char) (h : isHexDigit c = true) :
    c ∈ hexDigitChars := of_decide_eq_true h

theorem digitsLoop_allhex (cs : List Char) :
    ∀ acc : Nat, (∀ c ∈ cs, isHexDigit c = true) →
      digitsLoop cs acc = some (cs.foldl (fun a c => 16 * a + hexDigitVal c) acc) := by
  induction cs with
  | nil => intro acc _; rfl
  | cons c rest ih =>
    intro acc h
    have hc := h c (List.mem_cons_self c rest)
    have hp := hexChar_props c (mem_hexChars_of_isHexDigit c hc)
    rw [digitsLoop.eq_def]
    simp only []
    rw [if_neg hp.2.2.2.2.1, if_pos hc]
    rw [ih _ (fun x hx => h x (List.mem_cons_of_mem c hx))]
    rw [List.foldl_cons]

theorem parseHexDigits_allhex (cs : List Char) (hne : cs ≠ [])
    (h : ∀ c ∈ cs, isHexDigit c = true) : parseHexDigits cs = some (hexVal cs) := by
  cases cs with
  | nil => exact absurd rfl hne
  | cons c rest =>
    have hc := h c (List.mem_cons_self c rest)
    simp only [parseHexDigits]
    rw [if_pos hc]
    rw [digitsLoop_allhex rest _ (fun x hx => h x (List.mem_cons_of_mem c hx))]
    simp [hexVal, List.foldl_cons]

theorem parseAfterSign_allhex (cs : List Char) (hne : cs ≠ [])
    (h : ∀ c ∈ cs, isHexDigit c = true) : parseAfterSign cs = some (hexVal cs) := by
  cases cs with
  | nil => exact absurd rfl hne
  | cons c0 rest =>
    cases rest with
    | nil => exact parseHexDigits_allhex [c0] hne h
    | cons c1 rest2 =>
      have hc1 := hexChar_props c1
        (mem_hexChars_of_isHexDigit c1 (h c1 (List.mem_cons_of_mem c0 (List.mem_cons_self c1 rest2))))
      simp only [parseAfterSign]
      rw [if_neg (fun hand => hand.2.elim hc1.2.2.2.2.2.1 hc1.2.2.2.2.2.2.1)]
      exact parseHexDigits_allhex (c0 :: c1 :: rest2) hne h

theorem pyIntHex_allhex (cs : List Char) (hne : cs ≠ [])
    (h : ∀ c ∈ cs, isHexDigit c = true) : pyIntHex cs = some ((hexVal cs : Nat) : Int) := by
  unfold pyIntHex
  rw [pyStrip_eq_self cs
    (fun c hc => (hexChar_props c (mem_hexChars_of_isHexDigit c (h c hc))).1)]
  cases cs with
  | nil => exact absurd rfl hne
  | cons c rest =>
    have hp := hexChar_props c (mem_hexChars_of_isHexDigit c (h c (List.mem_cons_self c rest)))
    simp only [pyIntHexCore]
    rw [if_neg hp.2.2.1, if_neg hp.2.2.2.1]
    rw [parseAfterSign_allhex (c :: rest) hne h]
    rfl

theorem known_colors_not_hexonly :
    ∀ m ∈ known_colors, ∃ c ∈ m, c ∉ lowerHexChars := by decide

theorem known_colors_no_hash : ∀ m ∈ known_colors, '#' ∉ m := by decide

theorem pyLower_mem_lowerHex (s : List Char) (h : ∀ c ∈ s, isHexDigit c = true) :
    ∀ c ∈ pyLower s, c ∈ lowerHexChars := by
  intro c hc
  obtain ⟨a, ha, rfl⟩ := List.mem_map.mp hc
  exact (hexChar_props a (mem_hexChars_of_isHexDigit a (h a ha))).2.2.2.2.2.2.2

theorem not_known_of_allhex (s : List Char) (h : ∀ c ∈ s, isHexDigit c = true) :
    pyLower s ∉ known_colors := by
  intro hmem
  obtain ⟨c, hc, hnot⟩ := known_colors_not_hexonly _ hmem
  exact hnot (pyLower_mem_lowerHex s h c hc)

theorem doubleChars_length (l : List Char) : (doubleChars l).length = 2 * l.length := by
  induction l with
  | nil => rfl
  | cons c rest ih => simp only [doubleChars, List.length_cons, ih]; omega

theorem doubleChars_allhex (l : List Char) (h : ∀ c ∈ l, isHexDigit c = true) :
    ∀ c ∈ doubleChars l, isHexDigit c = true := by
  induction l with
  | nil => intro c hc; cases hc
  | cons a rest ih =>
    intro c hc
    have ha := h a (List.mem_cons_self a rest)
    simp only [doubleChars, List.mem_cons] at hc
    rcases hc with rfl | rfl | hc
    · exact ha
    · exact ha
    · exact ih (fun x hx => h x (List.mem_cons_of_mem a hx)) c hc

theorem head_ne_hash_of_allhex (s : List Char) (h : ∀ c ∈ s, isHexDigit c = true) :
    s.head? ≠ some '#' := by
  cases s with
  | nil => simp
  | cons c rest =>
    intro he
    exact (hexChar_props c (mem_hexChars_of_isHexDigit c
      (h c (List.mem_cons_self c rest)))).2.1 (Option.some.inj he)

theorem str_to_color_allhex6 (s : List Char) (h6 : s.length = 6)
    (h : ∀ c ∈ s, isHexDigit c = true) : str_to_color s = ((hexVal s : Int), []) := by
  have hne : s ≠ [] := by intro e; rw [e] at h6; simp at h6
  have hs : pyStrip s = s := pyStrip_eq_self s
    (fun c hc => (hexChar_props c (mem_hexChars_of_isHexDigit c (h c hc))).1)
  have hcand : hexCandidate s = s := by
    unfold hexCandidate
    rw [if_neg (head_ne_hash_of_allhex s h)]
    have h3 : s.length ≠ 3 := by omega
    rw [if_neg h3]
  unfold str_to_color
  rw [hs, hcand]
  rw [if_neg (not_known_of_allhex s h), if_pos h6]
  rw [pyIntHex_allhex s hne h]

theorem pyLower_hash_cons (s : List Char) : pyLower ('#' :: s) = '#' :: pyLower s := by
  simp only [pyLower, List.map_cons]
  rfl

theorem not_known_hash_cons (s : List Char) : '#' :: s ∉ known_colors := by
  intro hmem
  exact known_colors_no_hash _ hmem (List.mem_cons_self '#' s)

theorem pyStrip_hash_cons (s : List Char) (h : ∀ c ∈ s, isHexDigit c = true) :
    pyStrip ('#' :: s) = '#' :: s := by
  refine pyStrip_eq_self _ ?_
  intro c hc
  rcases List.mem_cons.mp hc with rfl | hc
  · decide
  · exact (hexChar_props c (mem_hexChars_of_isHexDigit c (h c hc))).1

theorem str_to_color_hash_allhex6 (s : List Char) (h6 : s.length = 6)
    (h : ∀ c ∈ s, isHexDigit c = true) :
    str_to_color ('#' :: s) = ((hexVal s : Int), []) := by
  have hne : s ≠ [] := by intro e; rw [e] at h6; simp at h6
  have hcand : hexCandidate ('#' :: s) = s := by
    unfold hexCandidate
    have hh : ('#' :: s).head? = some '#' := rfl
    rw [if_pos hh]
    have h3 : ('#' :: s).tail.length ≠ 3 := by simp [h6]
    rw [if_neg h3]
    rfl
  have hname : pyLower ('#' :: s) ∉ known_colors := by
    rw [pyLower_hash_cons]
    exact not_known_hash_cons (pyLower s)
  unfold str_to_color
  rw [pyStrip_hash_cons s h, hcand]
  rw [if_neg hname, if_pos h6]
  rw [pyIntHex_allhex s hne h]

theorem str_to_color_allhex3 (s : List Char) (h3 : s.length = 3)
    (h : ∀ c ∈ s, isHexDigit c = true) :
    str_to_color s = ((hexVal (doubleChars s) : Int), []) := by
  have hdne : doubleChars s ≠ [] := by
    intro e
    have := doubleChars_length s
    rw [e] at this
    simp [h3] at this
  have hs : pyStrip s = s := pyStrip_eq_self s
    (fun c hc => (hexChar_props c (mem_hexChars_of_isHexDigit c (h c hc))).1)
  have hcand : hexCandidate s = doubleChars s := by
    unfold hexCandidate
    rw [if_neg (head_ne_hash_of_allhex s h)]
    rw [if_pos h3]
  have h6 : (doubleChars s).length = 6 := by rw [doubleChars_length, h3]
  unfold str_to_color
  rw [hs, hcand]
  rw [if_neg (not_known_of_allhex s h), if_pos h6]
  rw [pyIntHex_allhex (doubleChars s) hdne (doubleChars_allhex s h)]

theorem str_to_color_hash_allhex3 (s : List Char) (h3 : s.length = 3)
    (h : ∀ c ∈ s, isHexDigit c = true) :
    str_to_color ('#' :: s) = ((hexVal (doubleChars s) : Int), []) := by
  have hdne : doubleChars s ≠ [] := by
    intro e
    have := doubleChars_length s
    rw [e] at this
    simp [h3] at this
  have hcand : hexCandidate ('#' :: s) = doubleChars s := by
    unfold hexCandidate
    have hh : ('#' :: s).head? = some '#' := rfl
    rw [if_pos hh]
    have ht : ('#' :: s).tail.length = 3 := by simp [h3]
    rw [if_pos ht]
    rfl
  have hname : pyLower ('#' :: s) ∉ known_colors := by
    rw [pyLower_hash_cons]
    exact not_known_hash_cons (pyLower s)
  have h6 : (doubleChars s).length = 6 := by rw [doubleChars_length, h3]
  unfold str_to_color
  rw [pyStrip_hash_cons s h, hcand]
  rw [if_neg hname, if_pos h6]
  rw [pyIntHex_allhex (doubleChars s) hdne (doubleChars_allhex s h)]

theorem foldl_erase_cons (p : Nat → Bool) (vs : List Nat) :
    ∀ (x : Nat) (l : List Nat), (∀ v ∈ vs, p v = true) → p x = false →
      vs.foldl (fun acc v => acc.erase v) (x :: l)
        = x :: vs.foldl (fun acc v => acc.erase v) l := by
  induction vs with
  | nil => intro x l _ _; rfl
  | cons v vs ih =>
    intro x l hall hx
    have hv := hall v (List.mem_cons_self v vs)
    have hne : x ≠ v := by
      intro e
      rw [e, hv] at hx
      cases hx
    simp only [List.foldl_cons]
    rw [List.erase_cons, if_neg (by simpa using hne)]
    exact ih x (l.erase v) (fun w hw => hall w (List.mem_cons_of_mem v hw)) hx

theorem foldl_erase_filter (p : Nat → Bool) :
    ∀ l : List Nat,
      (l.filter p).foldl (fun acc v => acc.erase v) l = l.filter (fun v => !(p v)) := by
  intro l
  induction l with
  | nil => rfl
  | cons x l ih =>
    by_cases hx : p x = true
    · rw [List.filter_cons_of_pos hx]
      simp only [List.foldl_cons]
      rw [List.erase_cons_head, ih]
      rw [List.filter_cons_of_neg (by simp [hx])]
    · have hx' : p x = false := by simpa using hx
      rw [List.filter_cons_of_neg (by simp [hx'])]
      rw [foldl_erase_cons p _ x l (fun v hv => (List.mem_filter.mp hv).2) hx']
      rw [ih]
      rw [List.filter_cons_of_pos (by simp [hx'])]

-- ---------------------------------------------------------------------------
-- Claim theorems
-- ---------------------------------------------------------------------------

/-- Claim C1, counterexample.  On the already-responded condition with a
succeeding followup, `respondToInteraction` does deliver via the followup,
but it does not return the followup's result: the source awaits
`safe_followup` without `return`, so the caller receives nothing while a
direct `followUpInteraction` call with the same payload returns the
delivered result. -/
theorem claim1_counterexample :
    (safe_respond ⟨1, 2⟩ none none none none false
        RespondOutcome.interactionResponded (FollowOutcome.ok 7)).result = none
    ∧ (safe_followup ⟨1, 2⟩ none none none none false (FollowOutcome.ok 7)).result = some 7 :=
  ⟨rfl, rfl⟩

/-- Claim C1, amended.  On the already-responded condition,
`respondToInteraction` issues the same followup request with the same
payload as a direct `followUpInteraction` call, emits exactly the same log
records (in particular none when the followup succeeds — the condition is
not logged as an error), but discards the followup's result and returns
nothing. -/
theorem claim1_fallback_behavior :
    ∀ (itx : Interaction) (content : Option String) (embed : Option Embed)
      (view : Option Nat) (file : Option Nat) (eph : Bool) (fo : FollowOutcome),
    (safe_respond itx content embed view file eph
        RespondOutcome.interactionResponded fo).requests
      = respondRequest itx content embed view file eph
        :: (safe_followup itx content embed view file eph fo).requests
    ∧ (safe_respond itx content embed view file eph
        RespondOutcome.interactionResponded fo).logs
      = (safe_followup itx content embed view file eph fo).logs
    ∧ (safe_respond itx content embed view file eph
        RespondOutcome.interactionResponded fo).result = none
    ∧ (∀ r : Nat, (safe_respond itx content embed view file eph
        RespondOutcome.interactionResponded (FollowOutcome.ok r)).logs = []) :=
  fun _ _ _ _ _ _ _ => ⟨rfl, rfl, rfl, fun _ => rfl⟩

/-- Claim C2, counterexample.  A successful `respondToInteraction` emits
zero log entries, not exactly one; and the already-responded fallback
issues two rate-limiter requests (the refused initial response and the
followup), not at most one. -/
theorem claim2_counterexample :
    (safe_respond ⟨3, 4⟩ none none none none false
        (RespondOutcome.ok 0) (FollowOutcome.ok 0)).logs.length = 0
    ∧ (safe_respond ⟨3, 4⟩ none none none none false
        RespondOutcome.interactionResponded (FollowOutcome.ok 0)).requests.length = 2 :=
  ⟨rfl, rfl⟩

/-- Claim C2, amended.  With the log sink initialized: `sendToChannel`
emits exactly one log entry and one rate-limiter request in every case;
`followUpInteraction` issues exactly one request, logging one error on
failure and nothing on success; `respondToInteraction` issues one request
and logs nothing on success, issues one request and logs one error on a
non-already-responded failure, and on the already-responded condition
issues two requests while emitting exactly the followup's log records. -/
theorem claim2_effect_counts :
    (∀ ch c e v f o, (safe_send_message ch c e v f o).logs.length = 1
      ∧ (safe_send_message ch c e v f o).requests.length = 1)
    ∧ (∀ itx c e v f eph fo, (safe_followup itx c e v f eph fo).requests.length = 1)
    ∧ (∀ itx c e v f eph r,
        (safe_followup itx c e v f eph (FollowOutcome.ok r)).logs.length = 0)
    ∧ (∀ itx c e v f eph d,
        (safe_followup itx c e v f eph (FollowOutcome.exc d)).logs.length = 1)
    ∧ (∀ itx c e v f eph r fo,
        (safe_respond itx c e v f eph (RespondOutcome.ok r) fo).logs.length = 0
        ∧ (safe_respond itx c e v f eph (RespondOutcome.ok r) fo).requests.length = 1)
    ∧ (∀ itx c e v f eph d fo,
        (safe_respond itx c e v f eph (RespondOutcome.exc d) fo).logs.length = 1
        ∧ (safe_respond itx c e v f eph (RespondOutcome.exc d) fo).requests.length = 1)
    ∧ (∀ itx c e v f eph fo,
        (safe_respond itx c e v f eph RespondOutcome.interactionResponded fo).requests.length = 2
        ∧ (safe_respond itx c e v f eph RespondOutcome.interactionResponded fo).logs
          = (safe_followup itx c e v f eph fo).logs) := by
  refine ⟨?_, ?_, ?_, ?_, ?_, ?_, ?_⟩
  · intro ch c e v f o
    cases o <;> exact ⟨rfl, rfl⟩
  · intro itx c e v f eph fo
    cases fo <;> rfl
  · intro itx c e v f eph r
    rfl
  · intro itx c e v f eph d
    rfl
  · intro itx c e v f eph r fo
    exact ⟨rfl, rfl⟩
  · intro itx c e v f eph d fo
    exact ⟨rfl, rfl⟩
  · intro itx c e v f eph fo
    cases fo <;> exact ⟨rfl, rfl⟩

/-- Claim C3, confirmed.  With the log sink initialized,
`sendToChannel` is a total function of the underlying send's outcome (the
embedding returns a plain `Dispatched`, so no exception reaches the
caller): for each of the three failure cases it returns nothing and emits
exactly one error record naming the channel (permission denial,
not-found) or describing the failure (any other exception). -/
theorem claim3_send_to_channel_total :
    (∀ ch c e v f, safe_send_message ch c e v f SendOutcome.forbidden
      = ⟨none, [Request.channelSend ch c e v f],
         [⟨Level.error, r"Bot has not the permission to send messages in " ++ ch⟩]⟩)
    ∧ (∀ ch c e v f, safe_send_message ch c e v f SendOutcome.notFound
      = ⟨none, [Request.channelSend ch c e v f],
         [⟨Level.error, r"Channel " ++ ch ++ r" not found"⟩]⟩)
    ∧ (∀ ch c e v f d, safe_send_message ch c e v f (SendOutcome.exc d)
      = ⟨none, [Request.channelSend ch c e v f],
         [⟨Level.error, r"Error when sending message: " ++ d⟩]⟩) :=
  ⟨fun _ _ _ _ _ => rfl, fun _ _ _ _ _ => rfl, fun _ _ _ _ _ _ => rfl⟩

/-- Claim C4, counterexample.  For a plain channel context the success
notification is sent directly through `ctx.send`, not through the
dispatcher: when that send raises, the exception propagates to the caller
(`Except.error`) and the failure is not logged (only the prior info record
for the message itself is emitted). -/
theorem claim4_counterexample :
    (success (Ctx.context (r"user") (r"avatar")) (r"done") 5
        (CtxSendOutcome.exc (r"Forbidden")) (RespondOutcome.ok 0) (FollowOutcome.ok 0)).result
      = Except.error (r"Forbidden")
    ∧ (success (Ctx.context (r"user") (r"avatar")) (r"done") 5
        (CtxSendOutcome.exc (r"Forbidden")) (RespondOutcome.ok 0) (FollowOutcome.ok 0)).logs
      = [⟨Level.info, r"done"⟩] :=
  ⟨rfl, rfl⟩

/-- Claim C4, amended.  For interaction targets, `success` and `failure`
deliver their notification through the dispatcher's
`respondToInteraction` with `ephemeral = true` (transient), so delivery
failures are suppressed and logged as `safe_respond` prescribes; for plain
channel contexts the notification embed is sent directly via the
context's send with the auto-delete duration (transient) and without the
dispatcher, and a failure there propagates to the caller. -/
theorem claim4_notification_delivery :
    (∀ itx msg da co ro fo, success (Ctx.interaction itx) msg da co ro fo
      = ⟨Except.ok (safe_respond itx none
            (some (clientEmbed (Ctx.interaction itx) msg (some successTitle) greenVal))
            none none true ro fo).result,
         (safe_respond itx none
            (some (clientEmbed (Ctx.interaction itx) msg (some successTitle) greenVal))
            none none true ro fo).requests,
         ⟨Level.info, msg⟩ :: (safe_respond itx none
            (some (clientEmbed (Ctx.interaction itx) msg (some successTitle) greenVal))
            none none true ro fo).logs⟩)
    ∧ (∀ itx msg da st co ro fo, failure (Ctx.interaction itx) msg da st co ro fo
      = ⟨Except.ok (safe_respond itx none
            (some (clientEmbed (Ctx.interaction itx) msg (some errorTitle) redVal))
            none none true ro fo).result,
         (safe_respond itx none
            (some (clientEmbed (Ctx.interaction itx) msg (some errorTitle) redVal))
            none none true ro fo).requests,
         ⟨Level.error, msg⟩ :: (safe_respond itx none
            (some (clientEmbed (Ctx.interaction itx) msg (some errorTitle) redVal))
            none none true ro fo).logs⟩)
    ∧ (∀ n av msg da m ro fo, success (Ctx.context n av) msg da (CtxSendOutcome.ok m) ro fo
      = ⟨Except.ok (some m),
         [Request.ctxSend (clientEmbed (Ctx.context n av) msg (some successTitle) greenVal) da],
         [⟨Level.info, msg⟩]⟩)
    ∧ (∀ n av msg da d ro fo, success (Ctx.context n av) msg da (CtxSendOutcome.exc d) ro fo
      = ⟨Except.error d,
         [Request.ctxSend (clientEmbed (Ctx.context n av) msg (some successTitle) greenVal) da],
         [⟨Level.info, msg⟩]⟩)
    ∧ (∀ n av msg da st d ro fo,
        failure (Ctx.context n av) msg da st (CtxSendOutcome.exc d) ro fo
      = ⟨Except.error d,
         [Request.ctxSend (clientEmbed (Ctx.context n av) msg (some errorTitle) redVal) da],
         [⟨Level.error, msg⟩]⟩) :=
  ⟨fun _ _ _ _ _ _ => rfl, fun _ _ _ _ _ _ _ => rfl, fun _ _ _ _ _ _ _ => rfl,
   fun _ _ _ _ _ _ _ => rfl, fun _ _ _ _ _ _ _ _ => rfl⟩

/-- Claim C5, counterexample.  Input `"xyz"` is neither a known colour
name nor valid hex; the resolver returns the default and exactly one
warning, but the warning names the transformed string `"xxyyzz"` (after
the 3-to-6 doubling), and the original input `"xyz"` does not occur in the
message. -/
theorem claim5_counterexample :
    str_to_color ((r"xyz").toList) = (blurpleVal, [warnColorMsg ((r"xxyyzz").toList)])
    ∧ hasSublist ((warnColorMsg ((r"xxyyzz").toList)).msg.toList) ((r"xyz").toList) = false
    ∧ warnColorMsg ((r"xxyyzz").toList) ≠ warnColorMsg ((r"xyz").toList) :=
  ⟨by decide, by decide, by decide⟩

/-- Claim C5, amended.  For every input that is neither a known colour
name nor valid hex (the hex candidate after stripping, `#` removal and
3-to-6 doubling is not 6 characters, or fails base-16 parsing), the
resolver returns the fixed default (blurple) and emits exactly one warning
— but the warning names the transformed candidate string, not necessarily
the original input.  The embedding is total: nothing is raised. -/
theorem claim5_default_on_invalid :
    ∀ s : List Char,
    pyLower (pyStrip s) ∉ known_colors →
    ((hexCandidate (pyStrip s)).length ≠ 6 ∨ pyIntHex (hexCandidate (pyStrip s)) = none) →
    str_to_color s = (blurpleVal, [warnColorMsg (hexCandidate (pyStrip s))]) := by
  intro s h1 h2
  unfold str_to_color
  rw [if_neg h1]
  by_cases hl : (hexCandidate (pyStrip s)).length = 6
  · rw [if_pos hl]
    rcases h2 with h2 | h2
    · exact absurd hl h2
    · rw [h2]
  · rw [if_neg hl]

/-- Witness for the amended C5 at the spec's scenario input `"zz"`. -/
theorem claim5_default_on_invalid_witness :
    (pyLower (pyStrip ((r"zz").toList)) ∉ known_colors)
    ∧ ((hexCandidate (pyStrip ((r"zz").toList))).length ≠ 6
        ∨ pyIntHex (hexCandidate (pyStrip ((r"zz").toList))) = none)
    ∧ str_to_color ((r"zz").toList)
        = (blurpleVal, [warnColorMsg (hexCandidate (pyStrip ((r"zz").toList)))]) :=
  ⟨by decide, by decide, claim5_default_on_invalid ((r"zz").toList) (by decide) (by decide)⟩

/-- Claim C6, counterexample.  Initializing the sink a second time (same
logger, handlers already present) adds no handlers, but it is not a
no-op: the second call re-applies `logger.setLevel` with the newly
requested levels, here changing the threshold from 20 (INFO) to 10
(DEBUG). -/
theorem claim6_counterexample :
    (setup_logger (setup_logger initialLogger (r"INFO") (r"INFO")) (r"DEBUG") (r"INFO")).handlers
      = (setup_logger initialLogger (r"INFO") (r"INFO")).handlers
    ∧ (setup_logger (setup_logger initialLogger (r"INFO") (r"INFO")) (r"DEBUG") (r"INFO")).level
      ≠ (setup_logger initialLogger (r"INFO") (r"INFO")).level :=
  ⟨by decide, by decide⟩

/-- Claim C6, amended.  A second initialization adds no duplicate
handlers: exactly one durable file handler and one console handler remain,
and with the same arguments the second call is a complete no-op; however,
the second call always resets the logger threshold to the minimum of the
newly requested levels. -/
theorem claim6_reinit_behavior :
    ∀ a b c d : String,
    (setup_logger (setup_logger initialLogger a b) c d).handlers
      = (setup_logger initialLogger a b).handlers
    ∧ ((setup_logger initialLogger a b).handlers.filter (fun h => h.isFile)).length = 1
    ∧ ((setup_logger initialLogger a b).handlers.filter (fun h => !h.isFile)).length = 1
    ∧ (setup_logger (setup_logger initialLogger a b) c d).level
      = min ((getLevelNamesMapping (pyUpper c)).getD 20)
          ((getLevelNamesMapping (pyUpper d)).getD 20)
    ∧ setup_logger (setup_logger initialLogger a b) a b = setup_logger initialLogger a b := by
  intro a b c d
  refine ⟨?_, ?_, ?_, ?_, ?_⟩ <;> simp [setup_logger, initialLogger]

/-- Claim C7, confirmed.  Emitting at any of the four severities before
the sink is initialized (module-global `logger` still `None`) fails with
the `require_logger` configuration error, which the embedding propagates
as `Except.error`: the message is never silently dropped and the absent
sink is never touched. -/
theorem claim7_logging_before_init :
    ∀ (msg : String) (stacktrace : Bool),
    debug none msg = Except.error setupErrorMsg
    ∧ info none msg = Except.error setupErrorMsg
    ∧ warning none msg = Except.error setupErrorMsg
    ∧ error none msg stacktrace = Except.error setupErrorMsg :=
  fun _ _ => ⟨rfl, rfl, rfl, rfl⟩

/-- Claim C8, confirmed.  (1) Any input whose stripped, lowercased form is
a known colour name resolves to exactly that named colour, with no log
output.  (2) Any string of exactly 6 hex digits, with or without a leading
`#`, resolves to the colour whose value is its base-16 interpretation.
(3) Any string of exactly 3 hex digits, with or without a leading `#`,
resolves to the value of the string with each digit doubled. -/
theorem claim8_color_resolution :
    (∀ s : List Char, pyLower (pyStrip s) ∈ known_colors →
        str_to_color s = (namedColorValue (pyLower (pyStrip s)), []))
    ∧ (∀ s : List Char, s.length = 6 → (∀ c ∈ s, isHexDigit c = true) →
        str_to_color s = ((hexVal s : Int), [])
        ∧ str_to_color ('#' :: s) = ((hexVal s : Int), []))
    ∧ (∀ s : List Char, s.length = 3 → (∀ c ∈ s, isHexDigit c = true) →
        str_to_color s = ((hexVal (doubleChars s) : Int), [])
        ∧ str_to_color ('#' :: s) = ((hexVal (doubleChars s) : Int), [])) := by
  refine ⟨?_, ?_, ?_⟩
  · intro s h
    unfold str_to_color
    rw [if_pos h]
  · intro s h6 h
    exact ⟨str_to_color_allhex6 s h6 h, str_to_color_hash_allhex6 s h6 h⟩
  · intro s h3 h
    exact ⟨str_to_color_allhex3 s h3 h, str_to_color_hash_allhex3 s h3 h⟩

/-- Witness for C8 at the spec's scenario inputs: `"  TEAL "` resolves to
the named teal colour, `"00c0ff"` to its base-16 value, `"#ABC"` to the
doubled-digit value 0xAABBCC. -/
theorem claim8_color_resolution_witness :
    pyLower (pyStrip ((r"  TEAL ").toList)) ∈ known_colors
    ∧ str_to_color ((r"  TEAL ").toList)
        = (namedColorValue (pyLower (pyStrip ((r"  TEAL ").toList))), [])
    ∧ (r"00c0ff").toList.length = 6
    ∧ (∀ c ∈ (r"00c0ff").toList, isHexDigit c = true)
    ∧ str_to_color ((r"00c0ff").toList) = ((hexVal ((r"00c0ff").toList) : Int), [])
    ∧ (r"ABC").toList.length = 3
    ∧ (∀ c ∈ (r"ABC").toList, isHexDigit c = true)
    ∧ str_to_color ('#' :: (r"ABC").toList)
        = ((hexVal (doubleChars ((r"ABC").toList)) : Int), []) :=
  ⟨by decide, claim8_color_resolution.1 _ (by decide), by decide, by decide,
   (claim8_color_resolution.2.1 _ (by decide) (by decide)).1, by decide, by decide,
   (claim8_color_resolution.2.2 _ (by decide) (by decide)).2⟩

/-- Claim C9, confirmed.  With no type predicate, `clear_views` removes
nothing and emits one warning.  With a predicate, exactly the matching
handles are removed (the collection becomes its non-matching filter, so
the other handles are unchanged) and one info record reports the count of
removed handles. -/
theorem claim9_clear_views_behavior :
    ∀ (views : List Nat) (p : Nat → Bool) (tr : String),
    clear_views views none tr = (views, [⟨Level.warning, clearWarnMsg⟩])
    ∧ clear_views views (some p) tr
      = (views.filter (fun v => !(p v)),
         [⟨Level.info, removedMsg (views.filter p).length tr⟩]) := by
  intro views p tr
  refine ⟨rfl, ?_⟩
  simp only [clear_views]
  rw [foldl_erase_filter]

/-- Claim C10, confirmed.  The 6-character strings `"+abcde"` and
`"00_0ff"` are not made of hex digits only, yet the resolver parses them
(CPython's base-16 parser accepts a sign and embedded underscores) and
returns their parsed values rather than the default colour, with no
warning. -/
theorem claim10_lenient_hex_parsing :
    ((r"+abcde").toList.length = 6 ∧ (r"00_0ff").toList.length = 6)
    ∧ (r"+abcde").toList.all (fun c => isHexDigit c) = false
    ∧ (r"00_0ff").toList.all (fun c => isHexDigit c) = false
    ∧ str_to_color ((r"+abcde").toList) = ((0xabcde : Int), [])
    ∧ str_to_color ((r"00_0ff").toList) = ((0xff : Int), [])
    ∧ (0xabcde : Int) ≠ blurpleVal
    ∧ (0xff : Int) ≠ blurpleVal :=
  ⟨⟨by decide, by decide⟩, by decide, by decide, by decide, by decide, by decide, by decide⟩

end dismob
